import Mathlib

/-!
Verification of the `node-auto-bot` repository (Telegram bot that provisions
Marzban nodes over SSH).

Texts exchanged with the remote shell are modelled line-wise: a text is its
list of lines (strings not containing a newline), and two such texts are
byte-identical exactly when their line lists are equal.  Heredoc extraction
(`cat > f << 'EOF' ... EOF`) is inherently line-based: the body is the run of
lines strictly before the first line equal to the delimiter.
-/

namespace NodeAutoBot

/-! ### `ServerManager._generate_setup_script` (src/utils.py, lines 102-154)

The Python f-string is reproduced line by line; the `{certificate}` hole
(source line 127) becomes the spliced list of certificate lines, and the
`{service_port}` / `{api_port}` holes become `toString` of the ports. -/

/-- Fixed script lines before the certificate splice (source lines 106-126). -/
def script_head : List String :=
  [ "#!/bin/bash",
    "set -e",
    "",
    "echo \"=== Updating system...\"",
    "sudo apt update -y",
    "",
    "echo \"=== Installing dependencies...\"",
    "sudo apt install socat git curl -y",
    "",
    "echo \"=== Installing Docker...\"",
    "curl -fsSL https://get.docker.com | sh",
    "",
    "echo \"=== Cloning Marzban Node repository...\"",
    "git clone https://github.com/Gozargah/Marzban-node || (cd Marzban-node && git pull)",
    "cd Marzban-node",
    "",
    "echo \"=== Creating certificate directory...\"",
    "sudo mkdir -p /var/lib/marzban-node",
    "",
    "# Save certificate",
    "cat > /tmp/cert.pem << 'CERTEOF'" ]

/-- Fixed script lines between the certificate splice and the port lines
(source lines 128-145). -/
def script_mid : List String :=
  [ "CERTEOF",
    "",
    "sudo mv /tmp/cert.pem /var/lib/marzban-node/ssl_client_cert.pem",
    "sudo chmod 644 /var/lib/marzban-node/ssl_client_cert.pem",
    "",
    "# Create docker-compose.yml",
    "cat > docker-compose.yml << 'COMPOSEEOF'",
    "version: '3'",
    "services:",
    "  marzban-node:",
    "    image: gozargah/marzban-node:latest",
    "    restart: always",
    "    network_mode: host",
    "    volumes:",
    "      - /var/lib/marzban-node:/var/lib/marzban-node",
    "    environment:",
    "      SSL_CLIENT_CERT_FILE: \"/var/lib/marzban-node/ssl_client_cert.pem\"",
    "      SERVICE_PROTOCOL: rest" ]

/-- Fixed script lines between the port lines and the final echo
(source lines 148-152). -/
def script_tail : List String :=
  [ "COMPOSEEOF",
    "",
    "echo \"=== Starting Marzban Node with Docker Compose...\"",
    "sudo docker compose up -d",
    "" ]

/-- `ServerManager._generate_setup_script` (src/utils.py, lines 102-154),
line-wise.  The trailing `""` reflects the newline that closes the f-string. -/
def generate_setup_script (certificate : List String)
    (service_port api_port : Nat) : List String :=
  script_head ++ certificate ++ script_mid ++
    [ "      SERVICE_PORT: " ++ toString service_port,
      "      XRAY_API_PORT: " ++ toString api_port ] ++
    script_tail ++
    [ "echo \"[SUCCESS] Node setup completed! Node should be available on port "
        ++ toString service_port ++ "\"",
      "" ]

/-- The remote command uploading the script (src/utils.py, line 58):
`cat > setup_node.sh << 'SCRIPTEOF'` followed by the script and the
delimiter line. -/
def upload_script_command (script : List String) : List String :=
  [ "cat > setup_node.sh << 'SCRIPTEOF'" ] ++ script ++ [ "SCRIPTEOF" ]

/-- Heredoc body of a command whose first line is `cat > f << 'D'`: the lines
after the `cat` line, up to (excluding) the first line equal to the
delimiter. -/
def shell_heredoc_body (cmd : List String) (delim : String) : List String :=
  (cmd.drop 1).takeWhile (fun l => l ≠ delim)

/-- Heredoc body of the first heredoc inside a script that starts at the line
`start` (`cat > f << 'D'`): the lines after the first occurrence of `start`,
up to (excluding) the first line equal to the delimiter. -/
def script_heredoc_body (script : List String) (start delim : String) :
    List String :=
  ((script.dropWhile (fun l => l ≠ start)).drop 1).takeWhile (fun l => l ≠ delim)

/-- The `cat` line opening the certificate heredoc inside the script. -/
def cert_heredoc_start : String := "cat > /tmp/cert.pem << 'CERTEOF'"

/-- Two strings whose first characters differ are distinct, even after
appending to the first. -/
lemma append_ne_of_head_ne (a b d : String) (ha : a.data ≠ [])
    (h : a.data.head? ≠ d.data.head?) : a ++ b ≠ d := by
  intro hEq
  apply h
  have hdata := congrArg String.data hEq
  rw [String.data_append] at hdata
  cases hcons : a.data with
  | nil => exact absurd hcons ha
  | cons x xs =>
      rw [hcons] at hdata
      rw [← hdata]
      rfl

/-- No line of the generated script equals the outer delimiter `SCRIPTEOF`,
provided no certificate line does. -/
lemma generate_setup_script_ne_scripteof (certificate : List String)
    (service_port api_port : Nat) (h : "SCRIPTEOF" ∉ certificate) :
    ∀ x ∈ generate_setup_script certificate service_port api_port,
      x ≠ "SCRIPTEOF" := by
  intro x hx
  simp only [generate_setup_script, List.mem_append, List.mem_cons,
    List.mem_singleton, List.not_mem_nil, or_false] at hx
  rcases hx with ((((hx | hx) | hx) | hx) | hx) | hx
  · revert hx
    have : ∀ y ∈ script_head, y ≠ "SCRIPTEOF" := by decide
    exact fun hy => this x hy
  · exact fun he => h (he ▸ hx)
  · revert hx
    have : ∀ y ∈ script_mid, y ≠ "SCRIPTEOF" := by decide
    exact fun hy => this x hy
  · rcases hx with hx | hx
    · subst hx
      exact append_ne_of_head_ne _ _ _ (by decide) (by decide)
    · subst hx
      exact append_ne_of_head_ne _ _ _ (by decide) (by decide)
  · revert hx
    have : ∀ y ∈ script_tail, y ≠ "SCRIPTEOF" := by decide
    exact fun hy => this x hy
  · rcases hx with hx | hx
    · subst hx
      rw [String.append_assoc]
      exact append_ne_of_head_ne _ _ _ (by decide) (by decide)
    · simp [hx]

/-- Uploading the generated script through the `SCRIPTEOF` heredoc recovers it
line-for-line, provided no certificate line equals `SCRIPTEOF`. -/
lemma upload_roundtrip (certificate : List String) (service_port api_port : Nat)
    (h : "SCRIPTEOF" ∉ certificate) :
    shell_heredoc_body
      (upload_script_command
        (generate_setup_script certificate service_port api_port))
      "SCRIPTEOF"
      = generate_setup_script certificate service_port api_port := by
  have hall := generate_setup_script_ne_scripteof certificate service_port
    api_port h
  unfold shell_heredoc_body upload_script_command
  simp only [List.cons_append, List.nil_append, List.drop_succ_cons,
    List.drop_zero]
  rw [List.takeWhile_append_of_pos (by simpa using hall)]
  simp

/-- Extracting the `CERTEOF` heredoc from the generated script recovers the
certificate lines, provided no certificate line equals `CERTEOF`. -/
lemma cert_roundtrip (certificate : List String) (service_port api_port : Nat)
    (h : "CERTEOF" ∉ certificate) :
    script_heredoc_body
      (generate_setup_script certificate service_port api_port)
      cert_heredoc_start "CERTEOF"
      = certificate := by
  have hcert : ∀ x ∈ certificate, x ≠ "CERTEOF" := fun x hx he => h (he ▸ hx)
  unfold script_heredoc_body generate_setup_script
  have hhead : script_head = (script_head.dropLast) ++ [cert_heredoc_start] := by
    decide
  rw [hhead]
  simp only [List.append_assoc]
  rw [List.dropWhile_append_of_pos (by decide)]
  simp only [List.cons_append, List.dropWhile_cons]
  norm_num
  rw [List.takeWhile_append_of_pos (by simpa using hcert)]
  simp [script_mid]

/-- C2 (counterexample): the claimed round-trip fails for a certificate whose
only line is the inner delimiter `CERTEOF` itself: the content the remote
shell extracts for `/tmp/cert.pem` is empty, not the certificate. -/
theorem cert_heredoc_roundtrip_fails_on_delimiter :
    script_heredoc_body (generate_setup_script ["CERTEOF"] 8443 8880)
      cert_heredoc_start "CERTEOF" ≠ ["CERTEOF"] := by
  decide

/-- C2 (amended): the generated setup script embeds the certificate through
two nested quoted heredocs with fixed delimiters `SCRIPTEOF` (script upload)
and `CERTEOF` (certificate file).  The certificate round-trips byte-for-byte
through both embeddings provided none of its lines equals one of those two
delimiter lines; the source does not escape or guard the certificate body, so
the round-trip is not unconditional. -/
theorem cert_heredoc_roundtrip_of_no_delimiter_lines
    (certificate : List String) (service_port api_port : Nat)
    (h1 : "SCRIPTEOF" ∉ certificate) (h2 : "CERTEOF" ∉ certificate) :
    shell_heredoc_body
        (upload_script_command
          (generate_setup_script certificate service_port api_port))
        "SCRIPTEOF"
      = generate_setup_script certificate service_port api_port ∧
    script_heredoc_body
        (generate_setup_script certificate service_port api_port)
        cert_heredoc_start "CERTEOF"
      = certificate :=
  ⟨upload_roundtrip certificate service_port api_port h1,
   cert_roundtrip certificate service_port api_port h2⟩

/-- C2 (witness): the amended round-trip at a concrete two-line certificate. -/
theorem cert_heredoc_roundtrip_witness :
    shell_heredoc_body
        (upload_script_command
          (generate_setup_script ["-----BEGIN CERTIFICATE-----",
            "-----END CERTIFICATE-----"] 8443 8880))
        "SCRIPTEOF"
      = generate_setup_script ["-----BEGIN CERTIFICATE-----",
          "-----END CERTIFICATE-----"] 8443 8880 ∧
    script_heredoc_body
        (generate_setup_script ["-----BEGIN CERTIFICATE-----",
          "-----END CERTIFICATE-----"] 8443 8880)
        cert_heredoc_start "CERTEOF"
      = ["-----BEGIN CERTIFICATE-----", "-----END CERTIFICATE-----"] :=
  cert_heredoc_roundtrip_of_no_delimiter_lines
    ["-----BEGIN CERTIFICATE-----", "-----END CERTIFICATE-----"] 8443 8880
    (by decide) (by decide)

/-- C4: `_generate_setup_script` is a pure deterministic function of
(certificate, service_port, api_port): equal arguments give byte-identical
output, the certificate appears verbatim (contiguously and unmodified) inside
the output, and the output decomposes into fixed constant segments with the
certificate and the two ports as the only holes. -/
theorem generate_setup_script_deterministic_template
    (certificate certificate' : List String)
    (service_port api_port service_port' api_port' : Nat)
    (hc : certificate = certificate') (hs : service_port = service_port')
    (ha : api_port = api_port') :
    generate_setup_script certificate service_port api_port
      = generate_setup_script certificate' service_port' api_port' ∧
    certificate <:+: generate_setup_script certificate service_port api_port ∧
    generate_setup_script certificate service_port api_port
      = script_head ++ certificate ++ script_mid ++
          [ "      SERVICE_PORT: " ++ toString service_port,
            "      XRAY_API_PORT: " ++ toString api_port ] ++
          script_tail ++
          [ "echo \"[SUCCESS] Node setup completed! Node should be available on port "
              ++ toString service_port ++ "\"",
            "" ] := by
  subst hc hs ha
  refine ⟨rfl, ?_, rfl⟩
  exact ⟨script_head,
    script_mid ++
      [ "      SERVICE_PORT: " ++ toString service_port,
        "      XRAY_API_PORT: " ++ toString api_port ] ++
      script_tail ++
      [ "echo \"[SUCCESS] Node setup completed! Node should be available on port "
          ++ toString service_port ++ "\"",
        "" ],
    by simp [generate_setup_script]⟩

/-! ### `ServerManager.setup_marzban_node` (src/utils.py, lines 30-100)

The remote side effects are modelled by an environment recording what each
interaction would produce: `connection.run` either raises (`.error msg`,
fabric exception text) or returns a result object with `failed`/`stderr`;
`os.getenv("MARZBAN_NODE_CERT")` is an optional certificate (absent covers
both an unset and an empty, falsy, variable).  The outcome records the
returned dict, whether `self.connection` is set on return, and whether
`connection.close()` ran. -/

/-- Result object of a remote `connection.run` call. -/
structure RunResult where
  failed : Bool
  stderr : String
deriving DecidableEq

/-- A remote `connection.run` either raises an exception or returns a
result. -/
abbrev RunOutcome := Except String RunResult

/-- Behaviour of `ServerManager.connect` (src/utils.py, lines 17-28):
either the `Connection(...)` constructor raises (so `self.connection` is
never assigned), or the connection object is assigned and the
`echo 'Connection test'` command produces the given outcome. -/
inductive ConnectBehavior where
  | ctor_raises (msg : String)
  | test (r : RunOutcome)

/-- `ServerManager.connect`: returns (`self.connection` assigned,
returned value).  An exception anywhere yields `False`; otherwise the
result is `not result.failed`. -/
def connect_model : ConnectBehavior → Bool × Bool
  | .ctor_raises _ => (false, false)
  | .test (.error _) => (true, false)
  | .test (.ok r) => (true, !r.failed)

/-- Environment for one `setup_marzban_node` call. -/
structure RemoteEnv where
  connect : ConnectBehavior
  cert : Option (List String)
  write_r : RunOutcome
  chmod_r : RunOutcome
  exec_r : RunOutcome
  rm_r : RunOutcome

/-- The dict returned by `setup_marzban_node`. -/
inductive SetupResult where
  | failure (error : String)
  | ok (message host : String) (service_port api_port : Nat)
deriving DecidableEq

/-- Observable outcome of `setup_marzban_node`: returned dict, whether
`self.connection` is set on return, whether `connection.close()` ran. -/
structure SetupOutcome where
  result : SetupResult
  conn_set : Bool
  closed : Bool
deriving DecidableEq

/-- Body of the `try:` block of `setup_marzban_node` (src/utils.py, lines
36-97): certificate check, script upload, chmod, execution, script removal.
The `rm -f` result is not checked by the source (line 83), only an exception
from it is caught; an exception in any step yields `Setup error: <msg>`
(line 97).  The generated script feeds the upload command; it does not
otherwise influence the outcome. -/
def setup_body (host : String) (env : RemoteEnv)
    (service_port api_port : Nat) : SetupResult :=
  match env.cert with
  | none => .failure "Certificate not found in environment"
  | some cert =>
      let _script := generate_setup_script cert service_port api_port
      match env.write_r with
      | .error e => .failure ("Setup error: " ++ e)
      | .ok r =>
          if r.failed then .failure ("Failed to create script: " ++ r.stderr)
          else match env.chmod_r with
          | .error e => .failure ("Setup error: " ++ e)
          | .ok r2 =>
              if r2.failed then
                .failure ("Failed to set permissions: " ++ r2.stderr)
              else match env.exec_r with
              | .error e => .failure ("Setup error: " ++ e)
              | .ok r3 =>
                  if r3.failed then .failure ("Setup failed: " ++ r3.stderr)
                  else match env.rm_r with
                  | .error e => .failure ("Setup error: " ++ e)
                  | .ok _ =>
                      .ok ("Node setup completed successfully! Available on port "
                            ++ toString service_port)
                        host service_port api_port

/-- `ServerManager.setup_marzban_node` (src/utils.py, lines 30-100).  If
`self.connection` is unset and `connect()` returns `False`, the failure dict
is returned from outside the `try` block (line 34), so the `finally` close
(lines 98-100) does not run; every path through the `try` block closes the
connection. -/
def setup_marzban_node (host : String) (already_connected : Bool)
    (env : RemoteEnv) (service_port api_port : Nat) : SetupOutcome :=
  if already_connected then
    ⟨setup_body host env service_port api_port, true, true⟩
  else
    match connect_model env.connect with
    | (cs, false) => ⟨.failure "Failed to connect to server", cs, false⟩
    | (_, true) => ⟨setup_body host env service_port api_port, true, true⟩

/-- C3: each step of `setup_marzban_node` produces its distinct structured
failure — connection failure, missing certificate, then `Failed to create
script`, `Failed to set permissions` and `Setup failed`, each followed by the
remote stderr — and on full success the result carries the host and both
ports (the removal step's result is ignored). -/
theorem setup_marzban_node_structured_results (host : String)
    (service_port api_port : Nat) (cert : List String)
    (s₁ s₂ s₃ msg : String) (rmF : Bool) (rmS : String)
    (w c e r : RunOutcome) (cb : ConnectBehavior) :
    (setup_marzban_node host false
        ⟨.ctor_raises msg, some cert, w, c, e, r⟩
        service_port api_port).result
      = .failure "Failed to connect to server" ∧
    (setup_marzban_node host false
        ⟨.test (.ok ⟨true, s₁⟩), some cert, w, c, e, r⟩
        service_port api_port).result
      = .failure "Failed to connect to server" ∧
    (setup_marzban_node host true ⟨cb, none, w, c, e, r⟩
        service_port api_port).result
      = .failure "Certificate not found in environment" ∧
    (setup_marzban_node host true
        ⟨cb, some cert, .ok ⟨true, s₁⟩, c, e, r⟩
        service_port api_port).result
      = .failure ("Failed to create script: " ++ s₁) ∧
    (setup_marzban_node host true
        ⟨cb, some cert, .ok ⟨false, s₁⟩, .ok ⟨true, s₂⟩, e, r⟩
        service_port api_port).result
      = .failure ("Failed to set permissions: " ++ s₂) ∧
    (setup_marzban_node host true
        ⟨cb, some cert, .ok ⟨false, s₁⟩, .ok ⟨false, s₂⟩, .ok ⟨true, s₃⟩, r⟩
        service_port api_port).result
      = .failure ("Setup failed: " ++ s₃) ∧
    (setup_marzban_node host true
        ⟨cb, some cert, .ok ⟨false, s₁⟩, .ok ⟨false, s₂⟩, .ok ⟨false, s₃⟩,
          .ok ⟨rmF, rmS⟩⟩
        service_port api_port).result
      = .ok ("Node setup completed successfully! Available on port "
              ++ toString service_port)
          host service_port api_port :=
  ⟨rfl, rfl, rfl, rfl, rfl, rfl, rfl⟩

/-- C8 (counterexample): when `self.connection` is unset and the connection
test command reports failure, `connect()` has assigned the connection object
but `setup_marzban_node` returns the failure dict without closing it. -/
theorem setup_marzban_node_unclosed_on_connect_failure :
    (setup_marzban_node "203.0.113.7" false
        ⟨.test (.ok ⟨true, "auth failed"⟩), some ["cert"],
          .ok ⟨false, ""⟩, .ok ⟨false, ""⟩, .ok ⟨false, ""⟩, .ok ⟨false, ""⟩⟩
        8443 8880).conn_set = true ∧
    (setup_marzban_node "203.0.113.7" false
        ⟨.test (.ok ⟨true, "auth failed"⟩), some ["cert"],
          .ok ⟨false, ""⟩, .ok ⟨false, ""⟩, .ok ⟨false, ""⟩, .ok ⟨false, ""⟩⟩
        8443 8880).closed = false := by
  decide

/-- C8 (amended): the remote session is closed on every exit path that enters
the `try` block — whether the connection pre-existed or `connect()` just
succeeded — for any certificate state and any step outcomes, exceptions
included; only the early return taken when the initial connection test fails
skips the close. -/
theorem setup_marzban_node_closes_connection (host : String) (env : RemoteEnv)
    (s : String) (cert : Option (List String)) (w c e r : RunOutcome)
    (service_port api_port : Nat) :
    (setup_marzban_node host true env service_port api_port).closed = true ∧
    (setup_marzban_node host false
        ⟨.test (.ok ⟨false, s⟩), cert, w, c, e, r⟩
        service_port api_port).closed = true :=
  ⟨rfl, rfl⟩

/-! ### `get_geo_ip` (src/utils.py, lines 165-177)

The two HTTP providers are modelled by the status and JSON fields their
responses would carry. -/

/-- Responses the two geo providers would return for the queried IP. -/
structure GeoEnv where
  primary_status : Nat
  primary_city : String
  primary_country_name : String
  fallback_status : Nat
  fallback_city : String
  fallback_country : String
deriving DecidableEq

/-- `get_geo_ip`: primary provider (ipapi.co) first; on 429 the fallback
provider (ipinfo.io); otherwise the sentinel `"Ghost"`. -/
def get_geo_ip (env : GeoEnv) : String :=
  if env.primary_status = 200 then
    env.primary_city ++ " (" ++ env.primary_country_name ++ ")"
  else if env.primary_status = 429 then
    if env.fallback_status = 200 then
      env.fallback_city ++ " (" ++ env.fallback_country ++ ")"
    else "Ghost"
  else "Ghost"

/-- C9: `get_geo_ip` formats the primary provider's city/country on 200,
queries the fallback only on a primary 429 and formats its city/country on a
fallback 200, and returns the sentinel `"Ghost"` for every other primary
status and for a 429 followed by a non-200 fallback. -/
theorem get_geo_ip_spec (pc pcn fc fco : String) (ps fs fs' : Nat) :
    get_geo_ip ⟨200, pc, pcn, fs, fc, fco⟩ = pc ++ " (" ++ pcn ++ ")" ∧
    get_geo_ip ⟨429, pc, pcn, 200, fc, fco⟩ = fc ++ " (" ++ fco ++ ")" ∧
    (ps ≠ 200 → ps ≠ 429 →
      get_geo_ip ⟨ps, pc, pcn, fs, fc, fco⟩ = "Ghost") ∧
    (fs' ≠ 200 → get_geo_ip ⟨429, pc, pcn, fs', fc, fco⟩ = "Ghost") := by
  refine ⟨rfl, rfl, ?_, ?_⟩
  · intro h1 h2
    simp [get_geo_ip, h1, h2]
  · intro h
    simp [get_geo_ip, h]

/-- C9 (witness): the geo-lookup spec at concrete statuses 404 and 503. -/
theorem get_geo_ip_spec_witness :
    get_geo_ip ⟨404, "Paris", "France", 200, "Oslo", "NO"⟩ = "Ghost" ∧
    get_geo_ip ⟨429, "Paris", "France", 503, "Oslo", "NO"⟩ = "Ghost" :=
  ⟨(get_geo_ip_spec "Paris" "France" "Oslo" "NO" 404 200 503).2.2.1
      (by decide) (by decide),
   (get_geo_ip_spec "Paris" "France" "Oslo" "NO" 404 200 503).2.2.2
      (by decide)⟩

/-! ### Bot workflow (src/bot.py)

`validate_ip_address` (bot.py, lines 51-57) defers to CPython's
`ipaddress.ip_address`; the textual grammar that function accepts is modelled
below over character lists: dotted-quad IPv4 (decimal octets `0..255`, no
leading zeros) or textual IPv6 (hex groups of 1-4 digits, at most one `::`,
optional embedded trailing IPv4, scope-id suffixes not modelled).  String
splitting and stripping are implemented structurally so that every
definition evaluates inside the kernel. -/

/-- Python `str.split(sep)` for a one-character separator. -/
def split_on_char (sep : Char) : List Char → List (List Char)
  | [] => [[]]
  | c :: rest =>
      let r := split_on_char sep rest
      if c = sep then [] :: r
      else
        match r with
        | [] => [[c]]
        | h :: t => (c :: h) :: t

/-- Python `str.strip()` (ASCII and unicode whitespace at both ends). -/
def strip_chars (cs : List Char) : List Char :=
  ((cs.dropWhile Char.isWhitespace).reverse.dropWhile
      Char.isWhitespace).reverse

/-- Python `str.strip()` as a `String` transformer. -/
def py_strip (s : String) : String := ⟨strip_chars s.data⟩

/-- Decimal value of a digit run: `none` on the empty run or any non-digit. -/
def parse_nat_aux (acc : Nat) : List Char → Option Nat
  | [] => some acc
  | c :: rest =>
      if c.isDigit then parse_nat_aux (acc * 10 + (c.toNat - '0'.toNat)) rest
      else none

/-- Decimal value of a nonempty all-digit character run. -/
def parse_nat : List Char → Option Nat
  | [] => none
  | cs => parse_nat_aux 0 cs

/-- Hexadecimal digit (ASCII). -/
def is_hex_digit (c : Char) : Bool :=
  c.isDigit || ('a' ≤ c && c ≤ 'f') || ('A' ≤ c && c ≤ 'F')

/-- One dotted-quad octet as accepted by `ipaddress`: ASCII decimal digits,
value at most 255, no leading zero. -/
def valid_ipv4_octet (g : List Char) : Bool :=
  match parse_nat g with
  | none => false
  | some n => decide (n ≤ 255) && (g.length = 1 || g.head? ≠ some '0')

/-- Dotted-quad IPv4 text: exactly four valid octets. -/
def is_ipv4 (cs : List Char) : Bool :=
  let parts := split_on_char '.' cs
  parts.length = 4 && parts.all valid_ipv4_octet

/-- One IPv6 group: one to four hexadecimal digits. -/
def valid_ipv6_group (g : List Char) : Bool :=
  decide (1 ≤ g.length) && decide (g.length ≤ 4) && g.all is_hex_digit

/-- Split at the first `::`, if any: the characters before it and after it. -/
def double_colon_split : List Char → Option (List Char × List Char)
  | [] => none
  | [_] => none
  | c1 :: c2 :: rest =>
      if c1 = ':' && c2 = ':' then some ([], rest)
      else
        match double_colon_split (c2 :: rest) with
        | some (l, r) => some (c1 :: l, r)
        | none => none

/-- Number of groups contributed by a `::`-free fragment that may not end in
an embedded IPv4 (the part before a `::`): `none` if malformed. -/
def ipv6_hex_side (cs : List Char) : Option Nat :=
  match cs with
  | [] => some 0
  | _ =>
      let parts := split_on_char ':' cs
      if parts.all valid_ipv6_group then some parts.length else none

/-- Number of groups contributed by a `::`-free fragment that may end in an
embedded IPv4, the latter counting for two groups: `none` if malformed. -/
def ipv6_tail_side (cs : List Char) : Option Nat :=
  match cs with
  | [] => some 0
  | _ =>
      let parts := split_on_char ':' cs
      if parts.dropLast.all valid_ipv6_group then
        match parts.getLast? with
        | none => none
        | some last =>
            if valid_ipv6_group last then some parts.length
            else if is_ipv4 last then some (parts.length + 1)
            else none
      else none

/-- Textual IPv6: without `::`, exactly eight groups; with exactly one `::`,
at most seven explicit groups (the `::` stands for at least one zero
group). -/
def is_ipv6 (cs : List Char) : Bool :=
  match double_colon_split cs with
  | none =>
      match ipv6_tail_side cs with
      | some n => n = 8
      | none => false
  | some (l, r) =>
      if (double_colon_split r).isSome then false
      else
        match ipv6_hex_side l, ipv6_tail_side r with
        | some nl, some nr => decide (nl + nr ≤ 7)
        | _, _ => false

/-- `validate_ip_address` (src/bot.py, lines 51-57): true exactly when
`ipaddress.ip_address` parses the string. -/
def validate_ip_address (ip : String) : Bool :=
  is_ipv4 ip.data || is_ipv6 ip.data

/-- The aiogram FSM states of `NodeConfig` (src/bot.py, lines 82-85). -/
inductive FsmState where
  | waiting_for_ip
  | waiting_for_password
  | waiting_for_ports
deriving DecidableEq

/-- Outcome of `process_ip` (src/bot.py, lines 198-233) on one message. -/
inductive IpOutcome where
  | invalid_format
  | localhost_rejected
  | accepted
deriving DecidableEq

/-- `process_ip`: strip the message text, reject unparseable addresses, then
reject exactly the three literals `127.0.0.1`, `localhost`, `::1`; everything
else is accepted (the port-22 probe only warns and never blocks). -/
def process_ip (text : String) : IpOutcome :=
  let ip := py_strip text
  if !validate_ip_address ip then .invalid_format
  else if ip = "127.0.0.1" || ip = "localhost" || ip = "::1" then
    .localhost_rejected
  else .accepted

/-- FSM state after `process_ip`: acceptance moves to
`waiting_for_password`, any rejection re-prompts and stays in
`waiting_for_ip`. -/
def process_ip_next_state (text : String) : FsmState :=
  match process_ip text with
  | .accepted => .waiting_for_password
  | _ => .waiting_for_ip

/-- C5 (counterexample): the loopback address `127.0.0.2` parses as valid
IPv4 and is not one of the three rejected literals, so the workflow accepts
it and moves on to collecting the password — the claim says every loopback
form is rejected. -/
theorem process_ip_accepts_other_loopback :
    process_ip "127.0.0.2" = .accepted ∧
    process_ip_next_state "127.0.0.2" = .waiting_for_password := by
  decide

/-- C5 (amended): the workflow accepts exactly the inputs whose stripped text
parses as an IPv4/IPv6 address and is not one of the three literal strings
`127.0.0.1`, `localhost`, `::1`; those acceptances move to the password
state, and every other input (unparseable, or one of the three literals) is
re-prompted in the same state.  Other loopback or unspecified forms such as
`127.0.0.2` or `0.0.0.0` are accepted. -/
theorem process_ip_accept_characterisation (text : String) :
    (process_ip text = .accepted ↔
      (validate_ip_address (py_strip text) = true ∧
        py_strip text ∉ ["127.0.0.1", "localhost", "::1"])) ∧
    process_ip_next_state text
      = (if process_ip text = .accepted then FsmState.waiting_for_password
         else FsmState.waiting_for_ip) := by
  constructor
  · unfold process_ip
    rcases hv : validate_ip_address (py_strip text) with _ | _
    · simp [hv]
    · rcases hl : (py_strip text = "127.0.0.1" || py_strip text = "localhost"
          || py_strip text = "::1") with _ | _
      · simp only [hv, hl]
        simp only [Bool.or_eq_false_iff, decide_eq_false_iff_not] at hl
        simp [hl]
      · simp only [hv, hl]
        simp only [Bool.or_eq_true, decide_eq_true_eq] at hl
        simp
        rcases hl with (h | h) | h <;> simp [h]
  · unfold process_ip_next_state
    rcases process_ip text with _ | _ | _ <;> simp

/-! `process_ports_manual` (src/bot.py, lines 286-299): split on `:`, require
exactly two parts, convert each with Python `int` (optional sign, decimal
digits), any `ValueError` re-prompts in the same state. -/

/-- Python `int(s)` on an already-stripped string: optional `+`/`-` sign
followed by one or more decimal digits (`none` models `ValueError`). -/
def python_int? : List Char → Option Int
  | '-' :: rest => (parse_nat rest).map (fun n => -(n : Int))
  | '+' :: rest => (parse_nat rest).map (fun n => (n : Int))
  | cs => (parse_nat cs).map (fun n => (n : Int))

/-- Outcome of `process_ports_manual` on one message. -/
inductive PortsOutcome where
  | proceed (service_port api_port : Int)
  | invalid_format
deriving DecidableEq

/-- `process_ports_manual`: `text.split(":")` must have exactly two parts and
both must convert with `int` after stripping, else the `ValueError` handler
re-prompts; on success `process_node_setup` is invoked with the pair. -/
def process_ports_manual (text : String) : PortsOutcome :=
  match split_on_char ':' text.data with
  | [p1, p2] =>
      match python_int? (strip_chars p1), python_int? (strip_chars p2) with
      | some sp, some ap => .proceed sp ap
      | _, _ => .invalid_format
  | _ => .invalid_format

/-- FSM state after `process_ports_manual`: an accepted pair runs
`process_node_setup`, whose `finally` clears the state (`none`); a rejected
input re-prompts and stays in `waiting_for_ports`. -/
def process_ports_next_state (text : String) : Option FsmState :=
  match process_ports_manual text with
  | .proceed _ _ => none
  | .invalid_format => some .waiting_for_ports

/-- C6 (counterexample): the input `70000:8880` is accepted and proceeds with
service port 70000, which is outside the uint16 TCP port range — the code
performs no range validation, so the claimed PortPair invariant fails. -/
theorem process_ports_manual_accepts_out_of_range :
    process_ports_manual "70000:8880" = .proceed 70000 8880 ∧
    ¬ (70000 : Int) ≤ 65535 := by
  constructor
  · decide
  · decide

/-- C6 (amended): `8443:8880` yields the pair (8443, 8880) and proceeds to
execution; inputs that are not exactly two colon-separated integers (such as
`abc:123` or `8443`) are validation errors that leave the state at
`waiting_for_ports` and re-prompt; but accepted pairs satisfy no range
invariant — the components are arbitrary parsed integers (e.g. 70000 or
negative values are accepted). -/
theorem process_ports_manual_spec :
    process_ports_manual "8443:8880" = .proceed 8443 8880 ∧
    process_ports_next_state "8443:8880" = none ∧
    process_ports_manual "abc:123" = .invalid_format ∧
    process_ports_next_state "abc:123" = some .waiting_for_ports ∧
    process_ports_manual "8443" = .invalid_format ∧
    process_ports_next_state "8443" = some .waiting_for_ports ∧
    ¬ (∀ text sp ap, process_ports_manual text = .proceed sp ap →
        0 ≤ sp ∧ sp ≤ 65535 ∧ 0 ≤ ap ∧ ap ≤ 65535) := by
  refine ⟨by decide, by decide, by decide, by decide, by decide, by decide, ?_⟩
  intro h
  have := h "70000:8880" 70000 8880 (by decide)
  omega

/-! ### `process_node_setup` (src/bot.py, lines 302-370)

The handler's observable behaviour is modelled as a trace: the progress
texts reported to the user (in order), whether `marzban_api.create_node` was
invoked, and whether the FSM state ended up cleared.  The `setup_result`
dict comes from `setup_marzban_node`; `create_node` either succeeds or
raises (`.error msg`), in which case the `except` branch reports the error;
the `finally` block always clears the state and re-shows the menu. -/

/-- Observable trace of one `process_node_setup` run. -/
structure NodeSetupTrace where
  reports : List String
  create_node_called : Bool
  state_cleared : Bool
deriving DecidableEq

/-- `process_node_setup`: on a failure dict, report the error verbatim,
clear the state and return without touching the control plane; on success,
call `create_node` and report either the node summary (node name, address,
ports, `now` timestamp) or the raised error.  `ip` is `data['ip']`,
`node_name` is `get_geo_ip(data['ip'])`. -/
def process_node_setup (setup_result : SetupResult) (ip node_name : String)
    (service_port api_port : Nat) (now : String)
    (create_r : Except String Unit) : NodeSetupTrace :=
  let pre := ["🔄 Starting node setup...", "📡 Connecting to the server...",
    "⚙️ Configuring the server..."]
  match setup_result with
  | .failure e =>
      { reports := pre ++ ["❌ Server setup failed: " ++ e, "Select action:",
          "Select action:"],
        create_node_called := false,
        state_cleared := true }
  | .ok _msg _host _sp _ap =>
      let pre2 := pre ++ ["✅ Server configured successfully!",
        "🔗 Adding node to Marzban..."]
      match create_r with
      | .error e =>
          { reports := pre2 ++ ["❌ Error: " ++ e, "Select action:"],
            create_node_called := true,
            state_cleared := true }
      | .ok _ =>
          { reports := pre2 ++
              ["✅ Node added successfully!\n\n📋 Node information:\n• Name: "
                  ++ node_name ++ "\n• Address: " ++ ip ++ "\n• Port: "
                  ++ toString service_port ++ "\n• API port: "
                  ++ toString api_port ++ "\n• Creation time: " ++ now,
                "Select action:"],
            create_node_called := true,
            state_cleared := true }

/-- C7: whenever `setup_marzban_node` returns a failure dict, the workflow
reports that error text verbatim (the report is a fixed prefix followed by
the error), never calls `create_node` in that run, and finishes with the
session state cleared. -/
theorem process_node_setup_failure_path (e ip node_name now : String)
    (service_port api_port : Nat) (create_r : Except String Unit) :
    ("❌ Server setup failed: " ++ e)
        ∈ (process_node_setup (.failure e) ip node_name service_port api_port
            now create_r).reports ∧
    (process_node_setup (.failure e) ip node_name service_port api_port
        now create_r).create_node_called = false ∧
    (process_node_setup (.failure e) ip node_name service_port api_port
        now create_r).state_cleared = true := by
  refine ⟨?_, rfl, rfl⟩
  simp [process_node_setup]

/-! ### `NodeSetup` control-plane client (src/marzban_node_api.py)

HTTP is modelled by a `World` assigning to each successive request on an
endpoint the response it returns; the client state carries the bearer token
together with per-endpoint request counters and the log of `Authorization`
header values sent.  Each recursive operation takes fuel: `none` means the
recursion did not terminate within that fuel for this world. -/

/-- An HTTP response: status code and body text (also standing in for the
parsed JSON payload). -/
structure Resp where
  status : Nat
  text : String

/-- A token-endpoint response: status, the `access_token` field of its JSON
body, and the raw text. -/
structure AuthResp where
  status : Nat
  access_token : String
  text : String

/-- Responses the server returns to the k-th request on each endpoint. -/
structure World where
  nodes_resp : Nat → Resp
  create_resp : Nat → Resp
  delete_resp : Nat → Resp
  auth_resp : Nat → AuthResp

/-- The mutable state of a `NodeSetup` instance, plus bookkeeping: how many
requests each endpoint has received and the `Authorization` header values
sent so far (in order, across all node operations). -/
structure NodeSetup where
  username : String
  password : String
  main_url : String
  token : String
  nodes_calls : Nat
  create_calls : Nat
  delete_calls : Nat
  auth_calls : Nat
  sent_bearer : List String
deriving DecidableEq

/-- `NodeSetup.__init__` (src/marzban_node_api.py, lines 14-21): stores the
credentials and URL and initialises the token to the empty string; no
authentication is performed. -/
def NodeSetup.init (username password url : String) : NodeSetup :=
  { username := username, password := password, main_url := url, token := "",
    nodes_calls := 0, create_calls := 0, delete_calls := 0, auth_calls := 0,
    sent_bearer := [] }

/-- The derived token-endpoint URL (source line 18). -/
def NodeSetup.auth_url (s : NodeSetup) : String :=
  s.main_url ++ "/api/admin/token"

/-- `NodeSetup._auth` (lines 23-34): POST the credentials; on 200 store the
`access_token`, otherwise raise `Authentication failed: <text>`. -/
def NodeSetup._auth (w : World) (s : NodeSetup) : Except String NodeSetup :=
  let r := w.auth_resp s.auth_calls
  let s := { s with auth_calls := s.auth_calls + 1 }
  if r.status = 200 then .ok { s with token := r.access_token }
  else .error ("Authentication failed: " ++ r.text)

/-- `NodeSetup.get_nodes` (lines 36-49): GET with the current bearer token;
200 returns the body, 401 authenticates and recurses with no retry bound,
anything else raises. -/
def NodeSetup.get_nodes (w : World) :
    Nat → NodeSetup → Option (Except String String × NodeSetup)
  | 0, _ => none
  | fuel + 1, s =>
      let r := w.nodes_resp s.nodes_calls
      let s := { s with nodes_calls := s.nodes_calls + 1,
                        sent_bearer := s.sent_bearer ++ ["Bearer " ++ s.token] }
      if r.status = 200 then some (.ok r.text, s)
      else if r.status = 401 then
        match NodeSetup._auth w s with
        | .ok s' => NodeSetup.get_nodes w fuel s'
        | .error e => some (.error e, s)
      else some (.error ("Nodes retrieval failed: " ++ r.text), s)

/-- The request payload built by `create_node` (lines 54-61). -/
def node_payload (name address : String) (port api_port : Nat)
    (new_host : Bool) : List (String × String) :=
  [ ("add_as_new_host", if new_host then "true" else "false"),
    ("address", address),
    ("api_port", toString api_port),
    ("name", name),
    ("port", toString port),
    ("usage_coefficient", "1") ]

/-- `NodeSetup.create_node` (lines 51-74): POST the payload with the current
bearer token; 200 returns the body, 401 authenticates and recurses with the
same arguments and no retry bound, anything else raises. -/
def NodeSetup.create_node (w : World) (name address : String)
    (port api_port : Nat) (new_host : Bool) :
    Nat → NodeSetup → Option (Except String String × NodeSetup)
  | 0, _ => none
  | fuel + 1, s =>
      let _payload := node_payload name address port api_port new_host
      let r := w.create_resp s.create_calls
      let s := { s with create_calls := s.create_calls + 1,
                        sent_bearer := s.sent_bearer ++ ["Bearer " ++ s.token] }
      if r.status = 200 then some (.ok r.text, s)
      else if r.status = 401 then
        match NodeSetup._auth w s with
        | .ok s' =>
            NodeSetup.create_node w name address port api_port new_host fuel s'
        | .error e => some (.error e, s)
      else some (.error ("Node creation failed: " ++ r.text), s)

/-- `NodeSetup.delete_node` (lines 76-88): DELETE with the current bearer
token; 200 returns the body, 401 authenticates and recurses with no retry
bound, anything else raises. -/
def NodeSetup.delete_node (w : World) (node_id : String) :
    Nat → NodeSetup → Option (Except String String × NodeSetup)
  | 0, _ => none
  | fuel + 1, s =>
      let r := w.delete_resp s.delete_calls
      let s := { s with delete_calls := s.delete_calls + 1,
                        sent_bearer := s.sent_bearer ++ ["Bearer " ++ s.token] }
      if r.status = 200 then some (.ok r.text, s)
      else if r.status = 401 then
        match NodeSetup._auth w s with
        | .ok s' => NodeSetup.delete_node w node_id fuel s'
        | .error e => some (.error e, s)
      else some (.error ("Node deletion failed: " ++ r.text), s)

/-- A server that answers 401 to every node operation while the token
endpoint always succeeds. -/
def w_all401 : World :=
  { nodes_resp := fun _ => ⟨401, "unauthorized"⟩,
    create_resp := fun _ => ⟨401, "unauthorized"⟩,
    delete_resp := fun _ => ⟨401, "unauthorized"⟩,
    auth_resp := fun _ => ⟨200, "tok", ""⟩ }

/-- A server that answers 401 to the first two `get_nodes` requests and 200
afterwards, with a working token endpoint. -/
def w_401_401_200 : World :=
  { nodes_resp := fun k => if k < 2 then ⟨401, "unauthorized"⟩ else ⟨200, "[]"⟩,
    create_resp := fun _ => ⟨200, "{}"⟩,
    delete_resp := fun _ => ⟨200, "{}"⟩,
    auth_resp := fun _ => ⟨200, "tok", ""⟩ }

lemma get_nodes_w_all401_none :
    ∀ (fuel : Nat) (s : NodeSetup),
      NodeSetup.get_nodes w_all401 fuel s = none := by
  intro fuel
  induction fuel with
  | zero => intro s; rfl
  | succ n ih =>
      intro s
      simp only [NodeSetup.get_nodes, w_all401, NodeSetup._auth]
      norm_num
      exact ih _

lemma create_node_w_all401_none (name address : String)
    (port api_port : Nat) (new_host : Bool) :
    ∀ (fuel : Nat) (s : NodeSetup),
      NodeSetup.create_node w_all401 name address port api_port new_host
        fuel s = none := by
  intro fuel
  induction fuel with
  | zero => intro s; rfl
  | succ n ih =>
      intro s
      simp only [NodeSetup.create_node, w_all401, NodeSetup._auth]
      norm_num
      exact ih _

lemma delete_node_w_all401_none (node_id : String) :
    ∀ (fuel : Nat) (s : NodeSetup),
      NodeSetup.delete_node w_all401 node_id fuel s = none := by
  intro fuel
  induction fuel with
  | zero => intro s; rfl
  | succ n ih =>
      intro s
      simp only [NodeSetup.delete_node, w_all401, NodeSetup._auth]
      norm_num
      exact ih _

/-- C1: against a server that answers 401 to every retried node request while
authentication itself succeeds, none of the three operations terminates under
any recursion bound (each 401 re-authenticates and recurses with no retry
counter); moreover two consecutive 401s followed by a 200 make `get_nodes`
re-authenticate twice and then return the body successfully instead of
raising after a single retry. -/
theorem nodesetup_unbounded_retry_on_persistent_401
    (fuel : Nat) (s : NodeSetup) (name address node_id : String)
    (port api_port : Nat) (new_host : Bool) :
    NodeSetup.get_nodes w_all401 fuel s = none ∧
    NodeSetup.create_node w_all401 name address port api_port new_host
      fuel s = none ∧
    NodeSetup.delete_node w_all401 node_id fuel s = none ∧
    (NodeSetup.get_nodes w_401_401_200 3 (NodeSetup.init "u" "p" "m")).map
        (fun out => (out.1.toOption, out.2.auth_calls))
      = some (some "[]", 2) :=
  ⟨get_nodes_w_all401_none fuel s,
   create_node_w_all401_none name address port api_port new_host fuel s,
   delete_node_w_all401_none node_id fuel s,
   by decide⟩

/-- A server that answers 200 to every request. -/
def w_all200 : World :=
  { nodes_resp := fun _ => ⟨200, "[]"⟩,
    create_resp := fun _ => ⟨200, "{}"⟩,
    delete_resp := fun _ => ⟨200, "{}"⟩,
    auth_resp := fun _ => ⟨200, "tok", ""⟩ }

lemma get_nodes_bearer_mono (w : World) :
    ∀ (fuel : Nat) (s : NodeSetup) (res : Except String String)
      (s' : NodeSetup),
      NodeSetup.get_nodes w fuel s = some (res, s') →
      ∃ t, s'.sent_bearer = s.sent_bearer ++ t := by
  intro fuel
  induction fuel with
  | zero =>
      intro s res s' h
      exact absurd h (by simp [NodeSetup.get_nodes])
  | succ n ih =>
      intro s res s' h
      simp only [NodeSetup.get_nodes] at h
      split at h
      · cases h
        exact ⟨["Bearer " ++ s.token], rfl⟩
      · split at h
        · simp only [NodeSetup._auth] at h
          split at h
          · rename_i sa heq
            split at heq
            · cases heq
              obtain ⟨t, ht⟩ := ih _ _ _ h
              exact ⟨["Bearer " ++ s.token] ++ t, by simp [ht]⟩
            · exact absurd heq (by simp)
          · cases h
            exact ⟨["Bearer " ++ s.token], rfl⟩
        · cases h
          exact ⟨["Bearer " ++ s.token], rfl⟩

lemma create_node_bearer_mono (w : World) (name address : String)
    (port api_port : Nat) (new_host : Bool) :
    ∀ (fuel : Nat) (s : NodeSetup) (res : Except String String)
      (s' : NodeSetup),
      NodeSetup.create_node w name address port api_port new_host fuel s
        = some (res, s') →
      ∃ t, s'.sent_bearer = s.sent_bearer ++ t := by
  intro fuel
  induction fuel with
  | zero =>
      intro s res s' h
      exact absurd h (by simp [NodeSetup.create_node])
  | succ n ih =>
      intro s res s' h
      simp only [NodeSetup.create_node] at h
      split at h
      · cases h
        exact ⟨["Bearer " ++ s.token], rfl⟩
      · split at h
        · simp only [NodeSetup._auth] at h
          split at h
          · rename_i sa heq
            split at heq
            · cases heq
              obtain ⟨t, ht⟩ := ih _ _ _ h
              exact ⟨["Bearer " ++ s.token] ++ t, by simp [ht]⟩
            · exact absurd heq (by simp)
          · cases h
            exact ⟨["Bearer " ++ s.token], rfl⟩
        · cases h
          exact ⟨["Bearer " ++ s.token], rfl⟩

lemma delete_node_bearer_mono (w : World) (node_id : String) :
    ∀ (fuel : Nat) (s : NodeSetup) (res : Except String String)
      (s' : NodeSetup),
      NodeSetup.delete_node w node_id fuel s = some (res, s') →
      ∃ t, s'.sent_bearer = s.sent_bearer ++ t := by
  intro fuel
  induction fuel with
  | zero =>
      intro s res s' h
      exact absurd h (by simp [NodeSetup.delete_node])
  | succ n ih =>
      intro s res s' h
      simp only [NodeSetup.delete_node] at h
      split at h
      · cases h
        exact ⟨["Bearer " ++ s.token], rfl⟩
      · split at h
        · simp only [NodeSetup._auth] at h
          split at h
          · rename_i sa heq
            split at heq
            · cases heq
              obtain ⟨t, ht⟩ := ih _ _ _ h
              exact ⟨["Bearer " ++ s.token] ++ t, by simp [ht]⟩
            · exact absurd heq (by simp)
          · cases h
            exact ⟨["Bearer " ++ s.token], rfl⟩
        · cases h
          exact ⟨["Bearer " ++ s.token], rfl⟩

/-- C10: a freshly constructed client has the empty string as its token and
has issued no requests; every completed `get_nodes`, `create_node` or
`delete_node` run started on a fresh client sends `Bearer ` with the empty
token as its first `Authorization` header; and when the first `get_nodes`
response is not a 401 the run finishes with no token-endpoint call and the
token still empty — a token is only ever acquired in reaction to a 401. -/
theorem nodesetup_lazy_empty_token_auth (u p url : String) (w : World)
    (fuel : Nat) (res res₂ res₃ : Except String String)
    (s' s₂ s₃ : NodeSetup) (name address node_id : String)
    (port api_port : Nat) (new_host : Bool) :
    (NodeSetup.init u p url).token = "" ∧
    (NodeSetup.init u p url).auth_calls = 0 ∧
    (NodeSetup.init u p url).sent_bearer = [] ∧
    (NodeSetup.get_nodes w (fuel + 1) (NodeSetup.init u p url)
        = some (res, s') →
      s'.sent_bearer.head? = some "Bearer ") ∧
    (NodeSetup.create_node w name address port api_port new_host (fuel + 1)
        (NodeSetup.init u p url) = some (res₂, s₂) →
      s₂.sent_bearer.head? = some "Bearer ") ∧
    (NodeSetup.delete_node w node_id (fuel + 1) (NodeSetup.init u p url)
        = some (res₃, s₃) →
      s₃.sent_bearer.head? = some "Bearer ") ∧
    ((w.nodes_resp 0).status ≠ 401 →
      NodeSetup.get_nodes w (fuel + 1) (NodeSetup.init u p url)
        = some (res, s') →
      s'.auth_calls = 0 ∧ s'.token = "") := by
  refine ⟨rfl, rfl, rfl, ?_, ?_, ?_, ?_⟩
  · intro h
    simp only [NodeSetup.get_nodes, NodeSetup.init] at h
    split at h
    · cases h
      rfl
    · split at h
      · simp only [NodeSetup._auth] at h
        split at h
        · rename_i sa heq
          split at heq
          · cases heq
            obtain ⟨t, ht⟩ := get_nodes_bearer_mono w _ _ _ _ h
            simp at ht
            simp [ht]
          · exact absurd heq (by simp)
        · cases h
          rfl
      · cases h
        rfl
  · intro h
    simp only [NodeSetup.create_node, NodeSetup.init] at h
    split at h
    · cases h
      rfl
    · split at h
      · simp only [NodeSetup._auth] at h
        split at h
        · rename_i sa heq
          split at heq
          · cases heq
            obtain ⟨t, ht⟩ :=
              create_node_bearer_mono w name address port api_port new_host
                _ _ _ _ h
            simp at ht
            simp [ht]
          · exact absurd heq (by simp)
        · cases h
          rfl
      · cases h
        rfl
  · intro h
    simp only [NodeSetup.delete_node, NodeSetup.init] at h
    split at h
    · cases h
      rfl
    · split at h
      · simp only [NodeSetup._auth] at h
        split at h
        · rename_i sa heq
          split at heq
          · cases heq
            obtain ⟨t, ht⟩ := delete_node_bearer_mono w node_id _ _ _ _ h
            simp at ht
            simp [ht]
          · exact absurd heq (by simp)
        · cases h
          rfl
      · cases h
        rfl
  · intro h401 h
    simp only [NodeSetup.get_nodes, NodeSetup.init] at h
    split at h
    · cases h
      exact ⟨rfl, rfl⟩
    · cases h
      exact ⟨rfl, rfl⟩

/-- C10 (witness): the lazy-authentication theorem applied to a fresh client
against an all-200 server, with the completed one-step runs supplied
definitionally. -/
theorem nodesetup_lazy_empty_token_auth_witness :
    (NodeSetup.init "u" "p" "m").token = "" ∧
    ({ NodeSetup.init "u" "p" "m" with
        nodes_calls := 1,
        sent_bearer := ["Bearer "] } : NodeSetup).sent_bearer.head?
      = some "Bearer " ∧
    ({ NodeSetup.init "u" "p" "m" with
        create_calls := 1,
        sent_bearer := ["Bearer "] } : NodeSetup).sent_bearer.head?
      = some "Bearer " ∧
    ({ NodeSetup.init "u" "p" "m" with
        delete_calls := 1,
        sent_bearer := ["Bearer "] } : NodeSetup).sent_bearer.head?
      = some "Bearer " ∧
    ({ NodeSetup.init "u" "p" "m" with
        nodes_calls := 1,
        sent_bearer := ["Bearer "] } : NodeSetup).auth_calls = 0 ∧
    ({ NodeSetup.init "u" "p" "m" with
        nodes_calls := 1,
        sent_bearer := ["Bearer "] } : NodeSetup).token = "" := by
  have T := nodesetup_lazy_empty_token_auth "u" "p" "m" w_all200 0
    (.ok "[]") (.ok "{}") (.ok "{}")
    { NodeSetup.init "u" "p" "m" with
        nodes_calls := 1,
        sent_bearer := ["Bearer "] }
    { NodeSetup.init "u" "p" "m" with
        create_calls := 1,
        sent_bearer := ["Bearer "] }
    { NodeSetup.init "u" "p" "m" with
        delete_calls := 1,
        sent_bearer := ["Bearer "] }
    "n" "a" "i" 1 2 true
  obtain ⟨h1, _, _, h4, h5, h6, h7⟩ := T
  refine ⟨h1, h4 rfl, h5 rfl, h6 rfl, ?_⟩
  have := h7 (by decide) rfl
  exact ⟨this.1, this.2⟩

/-- C4 (witness): the determinism-and-template theorem at concrete inputs. -/
theorem generate_setup_script_deterministic_template_witness :
    generate_setup_script ["certline"] 8443 8880
      = generate_setup_script ["certline"] 8443 8880 ∧
    ["certline"] <:+: generate_setup_script ["certline"] 8443 8880 ∧
    generate_setup_script ["certline"] 8443 8880
      = script_head ++ ["certline"] ++ script_mid ++
          [ "      SERVICE_PORT: " ++ toString 8443,
            "      XRAY_API_PORT: " ++ toString 8880 ] ++
          script_tail ++
          [ "echo \"[SUCCESS] Node setup completed! Node should be available on port "
              ++ toString 8443 ++ "\"",
            "" ] :=
  generate_setup_script_deterministic_template ["certline"] ["certline"]
    8443 8880 8443 8880 rfl rfl rfl

end NodeAutoBot
